import Mathlib

/-!
Verification of the KieranSQL typed query-builder library: a shallow
embedding of its type-descriptor value codecs (types_wrapper.py), the
WHERE-condition algebra (column_wrapper.py), the statement builders
(statement_wrapper.py) and the table key validation (table_wrapper.py),
together with theorems settling the specification's claims.

Python text is modelled as `List Char`; Python dynamic values as the
inductive `PyValue`; raised exceptions as `Except PyErr`.
-/

namespace KieranSQL

/-- Errors of errors.py, plus the builtin Python exceptions that can escape
uncaught (TypeError, ValueError, AttributeError, KeyError). -/

inductive PyErr where
  | invalidStatement
  | invalidQuery
  | invalidColumnType
  | tableKeysError
  | invalidPath
  | connectionException
  | illegalArgumentError
  | typeError
  | valueError
  | attributeError
  | keyError

deriving DecidableEq, Repr

/-- Single-quote character, written via its code point. -/

def squote : Char := Char.ofNat 39

/-- Decimal digit character, as produced by Python integer formatting. -/

def decChar (d : Nat) : Char := Nat.digitChar d

/-- Value of a decimal digit character; `Option.none` for a non-digit. -/

def decVal (c : Char) : Option Nat :=
  if 48 ≤ c.toNat ∧ c.toNat ≤ 57 then some (c.toNat - 48) else Option.none

/-- Little-endian list of exactly `w` decimal digit characters of `n`
(`n` is assumed `< 10 ^ w`, as guaranteed by the date/time ranges). -/

def padAux : Nat → Nat → List Char
  | 0, _ => []
  | w + 1, n => decChar (n % 10) :: padAux w (n / 10)

/-- Zero-padded fixed-width decimal rendering, as in CPython's
`%04d` / `%02d` formatting used by `date.isoformat` / `time.isoformat`. -/

def pad (w n : Nat) : List Char := (padAux w n).reverse

/-- Accumulating decimal parser over characters; `Option.none` once a
non-digit has been seen. -/

def parseDigitsAux : Option Nat → List Char → Option Nat
  | acc, [] => acc
  | acc, c :: cs =>
      parseDigitsAux (acc.bind fun a => (decVal c).map fun v => a * 10 + v) cs

/-- Parse a string of decimal digits into a number. -/

def parseDigits (cs : List Char) : Option Nat := parseDigitsAux (some 0) cs

/-- Validity of a date value, modelled from the spec: ISO-8601 dates with the
CPython year range 1..9999 (per-month day counts are not modelled; the same
bound is used by both the formatting and the parsing side). -/

def validDate (y m d : Nat) : Prop :=
  1 ≤ y ∧ y ≤ 9999 ∧ 1 ≤ m ∧ m ≤ 12 ∧ 1 ≤ d ∧ d ≤ 31

instance (y m d : Nat) : Decidable (validDate y m d) := by
  unfold validDate; infer_instance

/-- Validity of a time value (zero-microsecond times, as rendered by
`time.isoformat`). -/

def validTime (h mi s : Nat) : Prop := h ≤ 23 ∧ mi ≤ 59 ∧ s ≤ 59

instance (h mi s : Nat) : Decidable (validTime h mi s) := by
  unfold validTime; infer_instance

/-- Modelled from the spec: CPython `str(date)` = ISO-8601 `YYYY-MM-DD`. -/

def isoDate (y m d : Nat) : List Char :=
  pad 4 y ++ '-' :: (pad 2 m ++ '-' :: pad 2 d)

/-- Modelled from the spec: CPython `str(time)` = ISO-8601 `HH:MM:SS` for
zero-microsecond times. -/

def isoTime (h mi s : Nat) : List Char :=
  pad 2 h ++ ':' :: (pad 2 mi ++ ':' :: pad 2 s)

/-- Modelled from the spec: CPython `date.fromisoformat`, which accepts
exactly the `YYYY-MM-DD` shape and validates the components. -/

def fromisoDate (cs : List Char) : Option (Nat × Nat × Nat) :=
  if cs.length = 10 ∧ (cs.drop 4).head? = some '-' ∧ (cs.drop 7).head? = some '-' then
    match parseDigits (cs.take 4), parseDigits ((cs.drop 5).take 2), parseDigits (cs.drop 8) with
    | some y, some m, some d => if validDate y m d then some (y, m, d) else Option.none
    | _, _, _ => Option.none
  else Option.none

/-- Modelled from the spec: CPython `time.fromisoformat` on the `HH:MM:SS`
shape. -/

def fromisoTime (cs : List Char) : Option (Nat × Nat × Nat) :=
  if cs.length = 8 ∧ (cs.drop 2).head? = some ':' ∧ (cs.drop 5).head? = some ':' then
    match parseDigits (cs.take 2), parseDigits ((cs.drop 3).take 2), parseDigits (cs.drop 6) with
    | some h, some mi, some s => if validTime h mi s then some (h, mi, s) else Option.none
    | _, _, _ => Option.none
  else Option.none

/-- Dynamic Python values as they occur in the library: domain values
(str, int, float, bool, date, time), the `Null()` marker instance of
types_wrapper.py, and Python `None`. Floats are carried as rationals: the
library only ever passes them through `float(...)` unchanged, so the exact
machine representation never matters. -/

inductive PyValue where
  | int (n : Int)
  | float (q : Rat)
  | str (cs : List Char)
  | bool (b : Bool)
  | date (y m d : Nat)
  | time (h mi s : Nat)
  | nullMarker
  | none

deriving DecidableEq, Repr

/-- Decimal characters of a natural number, as in Python `str`. -/

def natChars (n : Nat) : List Char := Nat.toDigits 10 n

/-- Decimal characters of an integer, as in Python `str`. -/

def intChars (n : Int) : List Char :=
  if n < 0 then '-' :: natChars n.natAbs else natChars n.toNat

/-- Stand-in for CPython float repr text (the exact shortest-round-trip
floating-point rendering is not modelled; no claim depends on it). -/

def floatChars (q : Rat) : List Char :=
  intChars q.num ++ ('/' :: natChars q.den)

/-- Python `str(...)` on the values of `PyValue`. `Null()` objects render via
their `string_repr` and `None` as the text `None`. -/

def pyStr : PyValue → List Char
  | .int n => intChars n
  | .float q => floatChars q
  | .str cs => cs
  | .bool b => if b then ("True").data else ("False").data
  | .date y m d => isoDate y m d
  | .time h mi s => isoTime h mi s
  | .nullMarker => ("Null()").data
  | .none => ("None").data

/-- The closed set of SQL type descriptor variants of types_wrapper.py. -/

inductive SQLKind where
  | string (length : Nat)
  | integer
  | float
  | boolean
  | date
  | time
  | null

deriving DecidableEq, Repr

/-- Canonical display name (`string_repr`) of each descriptor class. -/

def kindRepr : SQLKind → List Char
  | .string len => ("String(").data ++ natChars len ++ (")").data
  | .integer => ("Integer()").data
  | .float => ("Float()").data
  | .boolean => ("Boolean()").data
  | .date => ("Date()").data
  | .time => ("Time()").data
  | .null => ("Null()").data

/-- An `SQL_Type` instance: its variant plus the primary-key and nullable
flags given at construction. -/

structure SQLType where
  kind : SQLKind
  is_primary_key : Bool
  is_nullable : Bool

deriving DecidableEq, Repr

/-- Constructor of the `String(length)` descriptor. -/

def StringT (length : Nat) (primary_key nullable : Bool) : SQLType :=
  ⟨.string length, primary_key, nullable⟩

/-- Constructor of the `Integer()` descriptor. -/

def IntegerT (primary_key nullable : Bool) : SQLType := ⟨.integer, primary_key, nullable⟩

/-- Constructor of the `Float()` descriptor. -/

def FloatT (primary_key nullable : Bool) : SQLType := ⟨.float, primary_key, nullable⟩

/-- Constructor of the `Boolean()` descriptor. -/

def BooleanT (primary_key nullable : Bool) : SQLType := ⟨.boolean, primary_key, nullable⟩

/-- Constructor of the `Date()` descriptor. -/

def DateT (primary_key nullable : Bool) : SQLType := ⟨.date, primary_key, nullable⟩

/-- Constructor of the `Time()` descriptor. -/

def TimeT (primary_key nullable : Bool) : SQLType := ⟨.time, primary_key, nullable⟩

/-- Constructor of the `Null()` descriptor (always non-primary, nullable). -/

def NullT : SQLType := ⟨.null, false, true⟩

/-- Plain decimal integer text accepted by Python `int(str)` (optional minus
sign then digits; the further forms CPython accepts, such as surrounding
whitespace or underscores, are not modelled — no claim exercises them). -/

def parseIntChars (cs : List Char) : Option Int :=
  match cs with
  | [] => Option.none
  | '-' :: rest =>
      if rest = [] then Option.none else (parseDigits rest).map fun n => -(n : Int)
  | _ => (parseDigits cs).map fun n => (n : Int)

/-- Python builtin `int(...)`: identity on ints, 0/1 on bools, truncation
toward zero on floats, decimal parsing on strings (ValueError on malformed
text), TypeError on everything else. -/

def pyIntFn : PyValue → Except PyErr Int
  | .int n => .ok n
  | .bool b => .ok (if b then 1 else 0)
  | .float q => .ok (q.num.tdiv (q.den : Int))
  | .str cs =>
      match parseIntChars cs with
      | some n => .ok n
      | Option.none => .error .valueError
  | _ => .error .typeError

/-- Python builtin `float(...)` (string parsing of float text is not
modelled; no claim exercises it). -/

def pyFloatFn : PyValue → Except PyErr Rat
  | .float q => .ok q
  | .int n => .ok (n : Rat)
  | .bool b => .ok (if b then 1 else 0)
  | .str _ => .error .valueError
  | _ => .error .typeError

/-- Python builtin `bool(...)`: truthiness. `Null()` instances and
date/time objects are truthy; `None` is falsy. -/

def pyBoolFn : PyValue → Bool
  | .bool b => b
  | .int n => decide (n ≠ 0)
  | .float q => decide (q ≠ 0)
  | .str cs => decide (cs ≠ [])
  | .none => false
  | _ => true

/-- Python `item[1:-1]` on a string: drop the first and last character. -/

def stripEnds (cs : List Char) : List Char := (cs.drop 1).dropLast

/-- The `to_sql` casting method bound to each descriptor class:
`convert_to_sql_string` for String (quotes, rejects non-strings with
InvalidColumnType), `int` for Integer, `float` for Float,
`int_to_bool_int` for Boolean, quoted `str(...)` for Date and Time
(these perform no type check), `none_to_null` for Null. -/

def rawToSql (k : SQLKind) (v : PyValue) : Except PyErr PyValue :=
  match k with
  | .string _ =>
      match v with
      | .str cs => .ok (.str (squote :: cs ++ [squote]))
      | _ => .error .invalidColumnType
  | .integer => (pyIntFn v).map .int
  | .float => (pyFloatFn v).map .float
  | .boolean => (pyIntFn v).map fun n => .int (if n = 0 then 0 else 1)
  | .date => .ok (.str (squote :: pyStr v ++ [squote]))
  | .time => .ok (.str (squote :: pyStr v ++ [squote]))
  | .null => if v = .nullMarker then .ok (.str ("NULL").data) else .error .illegalArgumentError

/-- The method `SQL_Type.convert_to_sql`: a `Null()` item short-circuits to
the text `NULL` for every descriptor; otherwise the bound `to_sql` runs,
with `ValueError` re-raised as `IllegalArgumentError` (other exceptions
propagate unchanged). -/

def convert_to_sql (t : SQLType) (v : PyValue) : Except PyErr PyValue :=
  if v = .nullMarker then .ok (.str ("NULL").data)
  else
    match rawToSql t.kind v with
    | .error .valueError => .error .illegalArgumentError
    | r => r

/-- The `to_python` casting method bound to each descriptor class:
`convert_to_python_string` for String (`str(item[1:-1])`), `int` for
Integer, `float` for Float, `bool` for Boolean, `to_date` / `to_time`
(strip quotes then `fromisoformat`) for Date and Time, a constant-None
lambda for Null. -/

def rawToPython (k : SQLKind) (v : PyValue) : Except PyErr PyValue :=
  match k with
  | .string _ =>
      match v with
      | .str cs => .ok (.str (stripEnds cs))
      | _ => .error .typeError
  | .integer => (pyIntFn v).map .int
  | .float => (pyFloatFn v).map .float
  | .boolean => .ok (.bool (pyBoolFn v))
  | .date =>
      match v with
      | .str cs =>
          match fromisoDate (stripEnds cs) with
          | some (y, m, d) => .ok (.date y m d)
          | Option.none => .error .valueError
      | _ => .error .typeError
  | .time =>
      match v with
      | .str cs =>
          match fromisoTime (stripEnds cs) with
          | some (h, mi, s) => .ok (.time h mi s)
          | Option.none => .error .valueError
      | _ => .error .typeError
  | .null => .ok .none

/-- The method `SQL_Type.convert_to_python`: dispatch to the bound
`to_python`. -/

def convert_to_python (t : SQLType) (v : PyValue) : Except PyErr PyValue :=
  rawToPython t.kind v

/-- The method `SQL_Type.validate`: rejects the `Null()` marker for a
column that is neither nullable nor a primary key. -/

def validateVal (t : SQLType) (v : PyValue) : Except PyErr Unit :=
  if v = .nullMarker ∧ t.is_nullable = false ∧ t.is_primary_key = false then
    .error .illegalArgumentError
  else .ok ()

/-- Persist a domain value and convert it back:
`to_domain(to_persisted(v))`. -/

def roundtrip (t : SQLType) (v : PyValue) : Except PyErr PyValue :=
  (convert_to_sql t v).bind (convert_to_python t)

deriving instance DecidableEq for Except

/-- A `WhereConditionWrapper` value: the accumulated boolean SQL predicate
text and the pool of positional query parameters. -/

structure WhereConditionWrapper where
  condition : List Char
  parameterised_query_pool : List PyValue

deriving DecidableEq, Repr

/-- Value produced by `__and__`. The Python method assigns these fields to
the LEFT operand in place (`self.parameterised_query_pool += ...`,
`self.condition += ...`) and then returns `self`, so this value is both the
returned Condition and the left operand's post-state. -/

def wand (a b : WhereConditionWrapper) : WhereConditionWrapper :=
  ⟨a.condition ++ (" AND ").data ++ b.condition,
   a.parameterised_query_pool ++ b.parameterised_query_pool⟩

/-- Value produced by `__or__`; same in-place mutation of the left operand
as `__and__`. -/

def wor (a b : WhereConditionWrapper) : WhereConditionWrapper :=
  ⟨a.condition ++ (" OR ").data ++ b.condition,
   a.parameterised_query_pool ++ b.parameterised_query_pool⟩

/-- Post-state of the left operand after `a & b`: mutated to the combined
condition. -/

def and_left_after (a b : WhereConditionWrapper) : WhereConditionWrapper := wand a b

/-- Post-state of the right operand after `a & b`: `other` is only read. -/

def and_right_after (_ b : WhereConditionWrapper) : WhereConditionWrapper := b

/-- Post-state of the left operand after `a | b`: mutated to the combined
condition. -/

def or_left_after (a b : WhereConditionWrapper) : WhereConditionWrapper := wor a b

/-- Post-state of the right operand after `a | b`: `other` is only read. -/

def or_right_after (_ b : WhereConditionWrapper) : WhereConditionWrapper := b

/-- A `ColumnWrapper`: a named, typed column bound to a table (the table
back-reference plays no role in any claim and is omitted). -/

structure ColumnWrapper where
  name : List Char
  type : SQLType

deriving DecidableEq, Repr

/-- The method `ColumnWrapper.__transform_other`: Python `None` becomes the
text `NULL`; any other value goes through the descriptor's
`convert_to_sql`. -/

def transform_other (c : ColumnWrapper) (other : PyValue) : Except PyErr PyValue :=
  if other = .none then .ok (.str ("NULL").data)
  else convert_to_sql c.type other

/-- The operator `__eq__`: `<name> = ?` with one pooled parameter. -/

def colEq (c : ColumnWrapper) (v : PyValue) : Except PyErr WhereConditionWrapper :=
  (transform_other c v).map fun o => ⟨c.name ++ (" = ?").data, [o]⟩

/-- The operator `__ne__`: `<name> <> ?` with one pooled parameter. -/

def colNe (c : ColumnWrapper) (v : PyValue) : Except PyErr WhereConditionWrapper :=
  (transform_other c v).map fun o => ⟨c.name ++ (" <> ?").data, [o]⟩

/-- The operator `__lt__`: `<name> < ?` with one pooled parameter. -/

def colLt (c : ColumnWrapper) (v : PyValue) : Except PyErr WhereConditionWrapper :=
  (transform_other c v).map fun o => ⟨c.name ++ (" < ?").data, [o]⟩

/-- The operator `__le__`: `<name> <= ?` with one pooled parameter. -/

def colLe (c : ColumnWrapper) (v : PyValue) : Except PyErr WhereConditionWrapper :=
  (transform_other c v).map fun o => ⟨c.name ++ (" <= ?").data, [o]⟩

/-- The operator `__gt__`: `<name> > ?` with one pooled parameter. -/

def colGt (c : ColumnWrapper) (v : PyValue) : Except PyErr WhereConditionWrapper :=
  (transform_other c v).map fun o => ⟨c.name ++ (" > ?").data, [o]⟩

/-- The operator `__ge__`: `<name> >= ?` with one pooled parameter. -/

def colGe (c : ColumnWrapper) (v : PyValue) : Except PyErr WhereConditionWrapper :=
  (transform_other c v).map fun o => ⟨c.name ++ (" >= ?").data, [o]⟩

/-- The six leaf comparison operators of the condition algebra. -/

inductive CmpOp where
  | eq | ne | lt | le | gt | ge

deriving DecidableEq, Repr

/-- Text appended to the column name by each comparison operator. -/

def opSuffix : CmpOp → List Char
  | .eq => (" = ?").data
  | .ne => (" <> ?").data
  | .lt => (" < ?").data
  | .le => (" <= ?").data
  | .gt => (" > ?").data
  | .ge => (" >= ?").data

/-- Dispatch a comparison operator to its dunder method. -/

def applyCmp : CmpOp → ColumnWrapper → PyValue → Except PyErr WhereConditionWrapper
  | .eq => colEq
  | .ne => colNe
  | .lt => colLt
  | .le => colLe
  | .gt => colGt
  | .ge => colGe

/-- A column type as declared in a user table: either a descriptor from the
closed `SQL_Type` set, or a reference to another table's column (a
`ColumnWrapper`, the foreign-key declaration form), carrying the
referenced column's descriptor. -/

inductive DeclColumnType where
  | sql : SQLType → DeclColumnType
  | ref : SQLType → DeclColumnType

deriving DecidableEq, Repr

/-- The method `Table.__find_foreign_keys` restricted to what key
validation consumes: the descriptors of the referenced columns. -/

def foreignTargets (cols : List DeclColumnType) : List SQLType :=
  cols.filterMap fun c =>
    match c with
    | .ref t => some t
    | .sql _ => Option.none

/-- The method `Table.__validate_foreign_keys`: every foreign key must
point at a primary-key column, else TableKeysError. -/

def validate_foreign_keys (cols : List DeclColumnType) : Except PyErr Unit :=
  if (foreignTargets cols).all (fun t => t.is_primary_key) then .ok ()
  else .error .tableKeysError

/-- Count of declared primary keys; foreign-key declarations have no
`is_primary_key` attribute, so the AttributeError branch skips them. -/

def primary_keys_present (cols : List DeclColumnType) : Nat :=
  cols.foldl
    (fun acc c =>
      match c with
      | .sql t => if t.is_primary_key then acc + 1 else acc
      | .ref _ => acc) 0

/-- The method `Table.__validate_columns` on the closed descriptor set
(whose members always pass the per-column type check): TableKeysError
unless exactly one primary key is declared. -/

def validate_columns (cols : List DeclColumnType) : Except PyErr Unit :=
  if primary_keys_present cols = 0 then .error .tableKeysError
  else if primary_keys_present cols > 1 then .error .tableKeysError
  else .ok ()

/-- Key validation exactly as `Table.__new__` sequences it:
`__validate_foreign_keys` then `__validate_columns`. -/

def validate_table_keys (cols : List DeclColumnType) : Except PyErr Unit := do
  validate_foreign_keys cols
  validate_columns cols

/-- Comma-separated join, as Python `', '.join(...)`. -/

def joinComma (parts : List (List Char)) : List Char :=
  List.intercalate ((", ").data) parts

/-- Observable state of an `SQLStatement` object. `exec_count` instruments
the number of `execute()` engine invocations performed on the statement so
far (the storage engine is an external collaborator; only the number and
payload of invocations is modelled). -/

structure SQLStatementS where
  statement : List Char
  parameterised_query_pool : List PyValue
  selector : Option (List ColumnWrapper)
  is_deleting : Bool
  is_updating : Bool
  exec_count : Nat

deriving DecidableEq, Repr

/-- The constructor of `SelectWrapper` (reached from `Table.Select`; the
`*` wildcard has already been expanded to the full column list there, and a
call with no arguments passes the EMPTY tuple, not `None`). No engine call
happens here. -/

def mkSelect (table_name : List Char) (selector : List ColumnWrapper) : SQLStatementS :=
  ⟨("SELECT ").data ++ joinComma (selector.map fun c => c.name)
      ++ (" FROM ").data ++ table_name,
   [], some selector, false, false, 0⟩

/-- The constructor of `DeleteWrapper`: no engine call at construction. -/

def mkDelete (table_name : List Char) : SQLStatementS :=
  ⟨("DELETE FROM ").data ++ table_name, [], Option.none, true, false, 0⟩

/-- The method `SQLStatement.Where`: `None` condition fails with
InvalidStatement; otherwise the predicate text and parameters are appended
and, when the statement is a Delete or an Update, `execute()` runs — this
is the single engine invocation of those statements. -/

def Where (s : SQLStatementS) (condition : Option WhereConditionWrapper) :
    Except PyErr SQLStatementS :=
  match condition with
  | Option.none => .error .invalidStatement
  | some c =>
      .ok ⟨s.statement ++ (" WHERE ").data ++ c.condition,
           s.parameterised_query_pool ++ c.parameterised_query_pool,
           s.selector, s.is_deleting, s.is_updating,
           s.exec_count + (if s.is_deleting || s.is_updating then 1 else 0)⟩

/-- Outcome of `SQLStatement.Fetch`: either an error raised before any
engine call, or an engine execution of the built statement text with its
parameter pool. -/

inductive FetchResult where
  | failedBeforeEngine : PyErr → FetchResult
  | engineExecuted : List Char → List PyValue → FetchResult

deriving DecidableEq, Repr

/-- The method `SQLStatement.Fetch` up to its engine call: the guard is
`self.selector is None` — only `None`, not an empty selection, takes the
InvalidStatement branch; otherwise `execute()` is invoked on the statement
as built. -/

def Fetch (s : SQLStatementS) : FetchResult :=
  match s.selector with
  | Option.none => .failedBeforeEngine .invalidStatement
  | some _ => .engineExecuted s.statement s.parameterised_query_pool

/-- Column display string `f"{self.name} [{self.type}]"`, used by
`__fill_all_columns` to match passed-in columns by `str(...)`. -/

def colStr (c : ColumnWrapper) : List Char :=
  c.name ++ (" [").data ++ kindRepr c.type.kind ++ ("]").data

/-- Python `[str(column) for column in all_columns].index(str(data_column))`:
index of the first column with the same display string (`Option.none` for
the uncaught ValueError when absent). -/

def indexOfColStr (cols : List ColumnWrapper) (c : ColumnWrapper) : Option Nat :=
  cols.findIdx? fun c2 => colStr c2 == colStr c

/-- The skip test of `__fill_all_columns`:
`isinstance(column.type, Integer) and column.type.is_primary_key` (the
engine auto-increments an integer primary key, so such a column is omitted
from the generated column list). -/

def isAutoIncIntPK (c : ColumnWrapper) : Bool :=
  (c.type.kind == SQLKind.integer) && c.type.is_primary_key

/-- The `for column_idx, column in enumerate(all_columns)` loop of
`__fill_all_columns`: `rel` carries the not-yet-consumed
`relative_column_indexes` entries paired with their data values
(`search_idx` is the number of consumed entries). A column whose index does
not equal the CURRENT head of `rel` is filled with a fresh `Null()`. -/

def fill_loop (cols : List ColumnWrapper) (column_idx : Nat)
    (rel : List (Nat × PyValue)) : List (ColumnWrapper × PyValue) :=
  match cols with
  | [] => []
  | c :: rest =>
      if isAutoIncIntPK c then fill_loop rest (column_idx + 1) rel
      else
        match rel with
        | [] => (c, .nullMarker) :: fill_loop rest (column_idx + 1) []
        | (i, v) :: rel2 =>
            if column_idx = i then (c, v) :: fill_loop rest (column_idx + 1) rel2
            else (c, .nullMarker) :: fill_loop rest (column_idx + 1) ((i, v) :: rel2)

/-- The static method `InsertIntoWrapper.__fill_all_columns`. -/

def fill_all_columns (all_columns : List ColumnWrapper)
    (data : List (ColumnWrapper × PyValue)) :
    Except PyErr (List (ColumnWrapper × PyValue)) :=
  match data.mapM (fun p => (indexOfColStr all_columns p.1).map fun i => (i, p.2)) with
  | Option.none => .error .valueError
  | some rel => .ok (fill_loop all_columns 0 rel)

/-- The static method `extract_sql_safe_values` (textually identical in
InsertIntoWrapper and UpdateWrapper): validate each value then convert it
via its column's descriptor (the `columns.index(column_wrapper.type)`
identity lookup resolves back to the very same descriptor instance). -/

def extract_sql_safe_values (data : List (ColumnWrapper × PyValue)) :
    Except PyErr (List PyValue) :=
  data.mapM fun p => do
    let _ ← validateVal p.1.type p.2
    convert_to_sql p.1.type p.2

/-- The constructor of `InsertIntoWrapper`: fill the missing columns,
convert the values, build the column list and the `?` placeholders, bind
`[str(value) for value in values]` as the parameter pool, and execute
immediately (`exec_count = 1`). -/

def mkInsert (table_name : List Char) (all_columns : List ColumnWrapper)
    (data : List (ColumnWrapper × PyValue)) : Except PyErr SQLStatementS := do
  let filled ← fill_all_columns all_columns data
  let values ← extract_sql_safe_values filled
  .ok ⟨("INSERT INTO ").data ++ table_name ++ (" (").data
        ++ joinComma (filled.map fun p => p.1.name)
        ++ (") VALUES (").data
        ++ joinComma (values.map fun _ => ("?").data) ++ (")").data,
       values.map fun v => .str (pyStr v),
       Option.none, false, false, 1⟩

/-- The constructor of `UpdateWrapper`: convert the values, build
`UPDATE <t> SET <k> = ?, ...`, bind `[str(value) for value in values]`, and
do not execute yet (`update=True`, `exec_count = 0`). -/

def mkUpdate (table_name : List Char) (data : List (ColumnWrapper × PyValue)) :
    Except PyErr SQLStatementS := do
  let values ← extract_sql_safe_values data
  .ok ⟨("UPDATE ").data ++ table_name ++ (" SET ").data
        ++ joinComma (data.map fun p => p.1.name ++ (" = ?").data),
       values.map fun v => .str (pyStr v),
       Option.none, false, true, 0⟩

/-- Python `kwargs is None` in `Table.InsertInto`: `**kwargs` is always a
dict (empty when no keyword arguments are given), never `None`, so this
test is constantly false. -/

def kwargs_is_none (_ : List (List Char × PyValue)) : Bool := false

/-- Lookup of `kwargs_conversion[column_name]` (`Option.none` for the
uncaught KeyError). -/

def lookupColumnByName (cols : List ColumnWrapper) (nm : List Char) :
    Option ColumnWrapper :=
  cols.find? fun c => c.name == nm

/-- Python `dict.update`: replace the values of existing keys in place and
append new keys in order. -/

def dictUpdate (d kw : List (ColumnWrapper × PyValue)) :
    List (ColumnWrapper × PyValue) :=
  kw.foldl
    (fun acc p =>
      if acc.any (fun q => q.1 == p.1) then
        acc.map fun q => if q.1 == p.1 then (q.1, p.2) else q
      else acc ++ [p]) d

/-- The classmethod `Table.InsertInto`: the no-data guard compares `kwargs`
against `None`, which never holds; with `data=None` the call falls through
and dies later with AttributeError — on `data.update(kwargs)` if keyword
values were given, else on `list(data.keys())` inside
`__fill_all_columns`. -/

def InsertIntoCall (table_name : List Char) (all_columns : List ColumnWrapper)
    (data : Option (List (ColumnWrapper × PyValue)))
    (kwargs : List (List Char × PyValue)) : Except PyErr SQLStatementS :=
  if data = Option.none ∧ kwargs_is_none kwargs = true then
    .error .illegalArgumentError
  else if kwargs ≠ [] then
    match kwargs.mapM (fun p => (lookupColumnByName all_columns p.1).map fun c => (c, p.2)) with
    | Option.none => .error .keyError
    | some kwcols =>
        match data with
        | Option.none => .error .attributeError
        | some d => mkInsert table_name all_columns (dictUpdate d kwcols)
  else
    match data with
    | Option.none => .error .attributeError
    | some d => mkInsert table_name all_columns d

/-- Concrete auto-increment integer primary-key column `ID`. -/

def colID : ColumnWrapper := ⟨("ID").data, IntegerT true true⟩

/-- Concrete nullable text column `A`. -/

def colA : ColumnWrapper := ⟨("A").data, StringT 20 false true⟩

/-- Concrete nullable text column `B`. -/

def colB : ColumnWrapper := ⟨("B").data, StringT 20 false true⟩

theorem padAux_length (w n : Nat) : (padAux w n).length = w := by
  induction w generalizing n with
  | zero => rfl
  | succ w ih => simp [padAux, ih]

theorem pad_length (w n : Nat) : (pad w n).length = w := by
  simp [pad, padAux_length]

theorem decVal_decChar {d : Nat} (h : d < 10) : decVal (decChar d) = some d := by
  interval_cases d <;> decide

theorem parseDigitsAux_append (acc : Option Nat) (xs ys : List Char) :
    parseDigitsAux acc (xs ++ ys) = parseDigitsAux (parseDigitsAux acc xs) ys := by
  induction xs generalizing acc with
  | nil => rfl
  | cons c cs ih => simp [parseDigitsAux, ih]

theorem parseDigitsAux_pad (w : Nat) : ∀ n a : Nat, n < 10 ^ w →
    parseDigitsAux (some a) (pad w n) = some (a * 10 ^ w + n) := by
  induction w with
  | zero =>
      intro n a h
      simp only [Nat.pow_zero, Nat.lt_one_iff] at h
      subst h
      simp [pad, padAux, parseDigitsAux]
  | succ w ih =>
      intro n a h
      have hdiv : n / 10 < 10 ^ w := by
        rw [Nat.div_lt_iff_lt_mul (by norm_num)]
        calc n < 10 ^ (w + 1) := h
        _ = 10 ^ w * 10 := by rw [Nat.pow_succ]
      have hmod : n % 10 < 10 := Nat.mod_lt _ (by norm_num)
      have : pad (w + 1) n = pad w (n / 10) ++ [decChar (n % 10)] := by
        simp [pad, padAux]
      rw [this, parseDigitsAux_append, ih (n / 10) a hdiv]
      simp only [parseDigitsAux, decVal_decChar hmod, Option.some_bind, Option.map_some',
        Option.some.injEq]
      have h2 : 10 ^ (w + 1) = 10 ^ w * 10 := Nat.pow_succ ..
      rw [h2]
      calc (a * 10 ^ w + n / 10) * 10 + n % 10
          = a * (10 ^ w * 10) + (10 * (n / 10) + n % 10) := by ring
        _ = a * (10 ^ w * 10) + n := by rw [Nat.div_add_mod]

theorem parseDigits_pad {w n : Nat} (h : n < 10 ^ w) :
    parseDigits (pad w n) = some n := by
  have := parseDigitsAux_pad w n 0 h
  simpa [parseDigits] using this

theorem fromisoDate_isoDate {y m d : Nat} (h : validDate y m d) :
    fromisoDate (isoDate y m d) = some (y, m, d) := by
  obtain ⟨h1, h2, h3, h4, h5, h6⟩ := h
  have hy : y < 10 ^ 4 := by omega
  have hm : m < 10 ^ 2 := by omega
  have hd : d < 10 ^ 2 := by omega
  have l4 : (pad 4 y).length = 4 := pad_length 4 y
  have l2m : (pad 2 m).length = 2 := pad_length 2 m
  have l2d : (pad 2 d).length = 2 := pad_length 2 d
  have hlen : (isoDate y m d).length = 10 := by
    simp [isoDate, l4, l2m, l2d]
  have hdrop4 : (isoDate y m d).drop 4 = '-' :: (pad 2 m ++ '-' :: pad 2 d) := by
    have := List.drop_left (pad 4 y) ('-' :: (pad 2 m ++ '-' :: pad 2 d))
    rw [l4] at this
    simpa [isoDate] using this
  have hdrop5 : (isoDate y m d).drop 5 = pad 2 m ++ '-' :: pad 2 d := by
    have : (isoDate y m d).drop 5 = ((isoDate y m d).drop 4).drop 1 := by
      rw [List.drop_drop]
    rw [this, hdrop4]
    rfl
  have hdrop7 : (isoDate y m d).drop 7 = '-' :: pad 2 d := by
    have : (isoDate y m d).drop 7 = ((isoDate y m d).drop 5).drop 2 := by
      rw [List.drop_drop]
    rw [this, hdrop5]
    have := List.drop_left (pad 2 m) ('-' :: pad 2 d)
    rw [l2m] at this
    exact this
  have hdrop8 : (isoDate y m d).drop 8 = pad 2 d := by
    have : (isoDate y m d).drop 8 = ((isoDate y m d).drop 7).drop 1 := by
      rw [List.drop_drop]
    rw [this, hdrop7]
    rfl
  have htake4 : (isoDate y m d).take 4 = pad 4 y := by
    have := List.take_left (pad 4 y) ('-' :: (pad 2 m ++ '-' :: pad 2 d))
    rw [l4] at this
    simpa [isoDate] using this
  have htake2 : ((isoDate y m d).drop 5).take 2 = pad 2 m := by
    rw [hdrop5]
    have := List.take_left (pad 2 m) ('-' :: pad 2 d)
    rw [l2m] at this
    exact this
  rw [fromisoDate, if_pos]
  · rw [htake4, htake2, hdrop8, parseDigits_pad hy, parseDigits_pad hm, parseDigits_pad hd]
    simp only
    rw [if_pos]
    exact ⟨h1, h2, h3, h4, h5, h6⟩
  · exact ⟨hlen, by rw [hdrop4]; rfl, by rw [hdrop7]; rfl⟩

theorem fromisoTime_isoTime {h mi s : Nat} (hv : validTime h mi s) :
    fromisoTime (isoTime h mi s) = some (h, mi, s) := by
  obtain ⟨h1, h2, h3⟩ := hv
  have hh : h < 10 ^ 2 := by omega
  have hm : mi < 10 ^ 2 := by omega
  have hs : s < 10 ^ 2 := by omega
  have l2h : (pad 2 h).length = 2 := pad_length 2 h
  have l2m : (pad 2 mi).length = 2 := pad_length 2 mi
  have l2s : (pad 2 s).length = 2 := pad_length 2 s
  have hlen : (isoTime h mi s).length = 8 := by
    simp [isoTime, l2h, l2m, l2s]
  have hdrop2 : (isoTime h mi s).drop 2 = ':' :: (pad 2 mi ++ ':' :: pad 2 s) := by
    have := List.drop_left (pad 2 h) (':' :: (pad 2 mi ++ ':' :: pad 2 s))
    rw [l2h] at this
    simpa [isoTime] using this
  have hdrop3 : (isoTime h mi s).drop 3 = pad 2 mi ++ ':' :: pad 2 s := by
    have : (isoTime h mi s).drop 3 = ((isoTime h mi s).drop 2).drop 1 := by
      rw [List.drop_drop]
    rw [this, hdrop2]
    rfl
  have hdrop5 : (isoTime h mi s).drop 5 = ':' :: pad 2 s := by
    have : (isoTime h mi s).drop 5 = ((isoTime h mi s).drop 3).drop 2 := by
      rw [List.drop_drop]
    rw [this, hdrop3]
    have := List.drop_left (pad 2 mi) (':' :: pad 2 s)
    rw [l2m] at this
    exact this
  have hdrop6 : (isoTime h mi s).drop 6 = pad 2 s := by
    have : (isoTime h mi s).drop 6 = ((isoTime h mi s).drop 5).drop 1 := by
      rw [List.drop_drop]
    rw [this, hdrop5]
    rfl
  have htake2 : (isoTime h mi s).take 2 = pad 2 h := by
    have := List.take_left (pad 2 h) (':' :: (pad 2 mi ++ ':' :: pad 2 s))
    rw [l2h] at this
    simpa [isoTime] using this
  have htake2m : ((isoTime h mi s).drop 3).take 2 = pad 2 mi := by
    rw [hdrop3]
    have := List.take_left (pad 2 mi) (':' :: pad 2 s)
    rw [l2m] at this
    exact this
  rw [fromisoTime, if_pos]
  · rw [htake2, htake2m, hdrop6, parseDigits_pad hh, parseDigits_pad hm, parseDigits_pad hs]
    simp only
    rw [if_pos]
    exact ⟨h1, h2, h3⟩
  · exact ⟨hlen, by rw [hdrop2]; rfl, by rw [hdrop5]; rfl⟩

/-- C1, amended: persisted round-trip `to_domain(to_persisted(v)) = v` holds
for the String, Integer, Float, Boolean, Date and Time descriptors on values
of their proper domain type (strings, ints, floats, booleans, valid
dates/times); it fails for the Null descriptor, whose marker converts back
to the domain none value, and for Boolean on non-boolean integers. -/
theorem C1_roundtrip_amended :
    (∀ (len : Nat) (pk nl : Bool) (s : List Char),
      roundtrip (StringT len pk nl) (.str s) = .ok (.str s)) ∧
    (∀ (pk nl : Bool) (n : Int), roundtrip (IntegerT pk nl) (.int n) = .ok (.int n)) ∧
    (∀ (pk nl : Bool) (q : Rat), roundtrip (FloatT pk nl) (.float q) = .ok (.float q)) ∧
    (∀ (pk nl : Bool) (b : Bool), roundtrip (BooleanT pk nl) (.bool b) = .ok (.bool b)) ∧
    (∀ (pk nl : Bool) (y m d : Nat), validDate y m d →
      roundtrip (DateT pk nl) (.date y m d) = .ok (.date y m d)) ∧
    (∀ (pk nl : Bool) (h mi s : Nat), validTime h mi s →
      roundtrip (TimeT pk nl) (.time h mi s) = .ok (.time h mi s)) ∧
    roundtrip NullT .nullMarker = .ok .none := by
  refine ⟨?_, ?_, ?_, ?_, ?_, ?_, rfl⟩
  · intro len pk nl s
    simp [roundtrip, convert_to_sql, convert_to_python, rawToSql, rawToPython,
      Except.bind, StringT, stripEnds]
  · intro pk nl n
    rfl
  · intro pk nl q
    rfl
  · intro pk nl b
    cases b <;> rfl
  · intro pk nl y m d h
    have hs : stripEnds (squote :: (isoDate y m d ++ [squote])) = isoDate y m d := by
      simp [stripEnds]
    have step2 : convert_to_python (DateT pk nl) (.str (squote :: (isoDate y m d ++ [squote])))
        = .ok (.date y m d) := by
      simp only [convert_to_python, rawToPython, DateT]
      rw [hs, fromisoDate_isoDate h]
    calc roundtrip (DateT pk nl) (.date y m d)
        = convert_to_python (DateT pk nl)
            (.str (squote :: (isoDate y m d ++ [squote]))) := rfl
      _ = .ok (.date y m d) := step2
  · intro pk nl h mi s hv
    have hs : stripEnds (squote :: (isoTime h mi s ++ [squote])) = isoTime h mi s := by
      simp [stripEnds]
    have step2 : convert_to_python (TimeT pk nl) (.str (squote :: (isoTime h mi s ++ [squote])))
        = .ok (.time h mi s) := by
      simp only [convert_to_python, rawToPython, TimeT]
      rw [hs, fromisoTime_isoTime hv]
    calc roundtrip (TimeT pk nl) (.time h mi s)
        = convert_to_python (TimeT pk nl)
            (.str (squote :: (isoTime h mi s ++ [squote]))) := rfl
      _ = .ok (.time h mi s) := step2

/-- Witness for C10: the theorem applied to a concrete one-column insert,
with both construction hypotheses discharged by computation. -/
theorem C1_roundtrip_amended_witness :
    roundtrip (DateT false true) (.date 2024 5 17) = .ok (.date 2024 5 17) ∧
    roundtrip (TimeT false true) (.time 13 5 9) = .ok (.time 13 5 9) :=
  ⟨C1_roundtrip_amended.2.2.2.2.1 false true 2024 5 17 (by decide),
   C1_roundtrip_amended.2.2.2.2.2.1 false true 13 5 9 (by decide)⟩

/-- Counterexample to C1 as stated: the Null descriptor converts its marker
to the persisted text NULL but back to the domain none value, not the
marker; and the Boolean descriptor accepts the integer 2 (a valid domain
value for its conversion) yet returns true, not 2. -/
theorem C1_roundtrip_counterexample :
    roundtrip NullT .nullMarker ≠ .ok .nullMarker ∧
    roundtrip (BooleanT false true) (.int 2) = .ok (.bool true) ∧
    PyValue.bool true ≠ PyValue.int 2 := by
  refine ⟨by decide, rfl, by decide⟩

/-- C2: the parameter pool of `A AND B` is A's parameters followed by B's,
so its length is the sum of the two lengths; likewise for `A OR B`. -/
theorem C2_parameter_alignment (a b : WhereConditionWrapper) :
    (wand a b).parameterised_query_pool
        = a.parameterised_query_pool ++ b.parameterised_query_pool ∧
    (wand a b).parameterised_query_pool.length
        = a.parameterised_query_pool.length + b.parameterised_query_pool.length ∧
    (wor a b).parameterised_query_pool
        = a.parameterised_query_pool ++ b.parameterised_query_pool ∧
    (wor a b).parameterised_query_pool.length
        = a.parameterised_query_pool.length + b.parameterised_query_pool.length := by
  simp [wand, wor]

/-- C3, amended: AND/OR produce the Condition whose text and parameters are
the left-then-right concatenations, and leave the right operand unchanged;
but they are not pure: the returned Condition is the left operand itself,
mutated in place to the combined value. -/
theorem C3_combination_effects (a b : WhereConditionWrapper) :
    wand a b = and_left_after a b ∧
    and_right_after a b = b ∧
    (wand a b).condition = a.condition ++ (" AND ").data ++ b.condition ∧
    (wand a b).parameterised_query_pool
        = a.parameterised_query_pool ++ b.parameterised_query_pool ∧
    wor a b = or_left_after a b ∧
    or_right_after a b = b ∧
    (wor a b).condition = a.condition ++ (" OR ").data ++ b.condition ∧
    (wor a b).parameterised_query_pool
        = a.parameterised_query_pool ++ b.parameterised_query_pool :=
  ⟨rfl, rfl, rfl, rfl, rfl, rfl, rfl, rfl⟩

/-- Counterexample to C3 as stated: at a concrete pair of leaf conditions,
the left operand's state after `&` (and after `|`) differs from its state
before, so the combinators do not leave both operands unchanged. -/
theorem C3_purity_counterexample :
    and_left_after ⟨("x = ?").data, [.int 1]⟩ ⟨("y = ?").data, [.int 2]⟩
        ≠ ⟨("x = ?").data, [.int 1]⟩ ∧
    or_left_after ⟨("x = ?").data, [.int 1]⟩ ⟨("y = ?").data, [.int 2]⟩
        ≠ ⟨("x = ?").data, [.int 1]⟩ := by
  decide

/-- C8, amended: every leaf comparison whose value conversion succeeds
yields a Condition with exactly one positional placeholder and exactly one
pooled parameter, the converted value; but a domain null (`None`) is not
rendered into the predicate text — it is transformed to the text `NULL`
(bypassing the descriptor) and bound as the single parameter. -/
theorem C8_leaf_conditions_amended (op : CmpOp) (c : ColumnWrapper) (v : PyValue)
    (o : PyValue) (hconv : transform_other c v = .ok o)
    (hname : c.name.count '?' = 0) :
    applyCmp op c v = .ok ⟨c.name ++ opSuffix op, [o]⟩ ∧
    (c.name ++ opSuffix op).count '?' = 1 ∧
    (v = .none → o = .str ("NULL").data) := by
  refine ⟨?_, ?_, ?_⟩
  · cases op <;>
      simp [applyCmp, colEq, colNe, colLt, colLe, colGt, colGe, hconv, opSuffix,
        Except.map]
  · cases op <;> simp [opSuffix, List.count_append, hname]
  · intro hv
    subst hv
    simp [transform_other] at hconv
    exact hconv.symm

/-- Witness for C8: the amended statement applied to `ID = 7` on an integer
column, with both hypotheses discharged concretely. -/
theorem C8_leaf_conditions_amended_witness :
    applyCmp CmpOp.eq ⟨("ID").data, IntegerT true true⟩ (.int 7)
        = .ok ⟨("ID").data ++ opSuffix CmpOp.eq, [.int 7]⟩ ∧
    (("ID").data ++ opSuffix CmpOp.eq).count '?' = 1 := by
  have h := C8_leaf_conditions_amended CmpOp.eq ⟨("ID").data, IntegerT true true⟩
    (.int 7) (.int 7) (by decide) (by decide)
  exact ⟨h.1, h.2.1⟩

/-- Counterexample to C8 as stated: comparing an integer column to the
domain null (`None`) produces the predicate `ID = ?` — the null marker
text appears nowhere in the predicate — with the text `NULL` bound as the
single positional parameter. -/
theorem C8_null_literal_counterexample :
    colEq ⟨("ID").data, IntegerT true true⟩ PyValue.none
        = .ok ⟨("ID = ?").data, [.str ("NULL").data]⟩ ∧
    'N' ∉ ("ID = ?").data ∧
    (PyValue.str ("NULL").data) ∈ [PyValue.str ("NULL").data] := by
  decide

/-- C4: table key validation fails with TableKeysError exactly when the
declared columns contain zero or several primary keys or some foreign key
targets a non-primary-key column, and succeeds exactly when there is one
primary key and every foreign-key target is a primary key. -/
theorem C4_table_keys_validation (cols : List DeclColumnType) :
    (validate_table_keys cols = .error .tableKeysError ↔
      (primary_keys_present cols ≠ 1 ∨
        ∃ t ∈ foreignTargets cols, t.is_primary_key = false)) ∧
    (validate_table_keys cols = .ok () ↔
      (primary_keys_present cols = 1 ∧
        ∀ t ∈ foreignTargets cols, t.is_primary_key = true)) := by
  have hforall :
      ((foreignTargets cols).all (fun t => t.is_primary_key) = true) ↔
        ∀ t ∈ foreignTargets cols, t.is_primary_key = true := by
    simp [List.all_eq_true]
  have hexists :
      (¬ (foreignTargets cols).all (fun t => t.is_primary_key) = true) ↔
        ∃ t ∈ foreignTargets cols, t.is_primary_key = false := by
    rw [hforall]
    push_neg
    constructor
    · rintro ⟨t, ht, hne⟩
      exact ⟨t, ht, by revert hne; cases t.is_primary_key <;> simp⟩
    · rintro ⟨t, ht, hf⟩
      exact ⟨t, ht, by rw [hf]; simp⟩
  by_cases hf : (foreignTargets cols).all (fun t => t.is_primary_key) = true
  · have hfk : validate_foreign_keys cols = .ok () := by
      simp [validate_foreign_keys, hf]
    have hseq : validate_table_keys cols = validate_columns cols := by
      simp [validate_table_keys, hfk, Bind.bind, Except.bind]
    rcases Nat.lt_trichotomy (primary_keys_present cols) 1 with hlt | heq | hgt
    · have h0 : primary_keys_present cols = 0 := by omega
      have hvc : validate_columns cols = .error .tableKeysError := by
        simp [validate_columns, h0]
      rw [hseq, hvc]
      refine ⟨⟨fun _ => Or.inl (by omega), fun _ => rfl⟩,
        ⟨fun h => Except.noConfusion h, ?_⟩⟩
      rintro ⟨h1, -⟩
      exact absurd h1 (by omega)
    · have hvc : validate_columns cols = .ok () := by
        simp [validate_columns, heq]
      rw [hseq, hvc]
      refine ⟨⟨fun h => Except.noConfusion h, ?_⟩,
        ⟨fun _ => ⟨heq, hforall.mp hf⟩, fun _ => rfl⟩⟩
      rintro (h1 | ⟨t, ht, hfalse⟩)
      · exact absurd heq h1
      · have := hforall.mp hf t ht
        rw [this] at hfalse
        cases hfalse
    · have h0 : ¬ primary_keys_present cols = 0 := by omega
      have hvc : validate_columns cols = .error .tableKeysError := by
        simp [validate_columns, h0, hgt]
      rw [hseq, hvc]
      refine ⟨⟨fun _ => Or.inl (by omega), fun _ => rfl⟩,
        ⟨fun h => Except.noConfusion h, ?_⟩⟩
      rintro ⟨h1, -⟩
      exact absurd h1 (by omega)
  · have hfk : validate_foreign_keys cols = .error .tableKeysError := by
      simp [validate_foreign_keys, hf]
    have hseq : validate_table_keys cols = .error .tableKeysError := by
      simp [validate_table_keys, hfk, Bind.bind, Except.bind]
    rw [hseq]
    refine ⟨⟨fun _ => Or.inr (hexists.mp hf), fun _ => rfl⟩,
      ⟨fun h => Except.noConfusion h, ?_⟩⟩
    rintro ⟨-, hall⟩
    exact absurd (hforall.mpr hall) hf

/-- Witness for C4: a concrete schema with exactly one primary key and one
foreign key targeting a primary key passes key validation, by the theorem's
success direction. -/
theorem C4_table_keys_validation_witness :
    validate_table_keys [DeclColumnType.sql (IntegerT true true),
      DeclColumnType.sql (StringT 20 false true),
      DeclColumnType.ref (IntegerT true true)] = .ok () :=
  (C4_table_keys_validation _).2.mpr ⟨by decide, by decide⟩

/-- C5: the insert fill rule behaves as claimed on schema-ordered input —
the integer primary key is omitted and the missing column B is filled with
the null marker — but on the failing input `{B: b, A: a}` (columns given
out of schema order) the present column A is filled with the null marker
and its given value is dropped, contradicting the claim that columns
present in the mapping keep their given values. -/
theorem C5_insert_fill_on_inputs :
    fill_all_columns [colID, colA, colB] [(colA, .str ("a").data)]
        = .ok [(colA, .str ("a").data), (colB, .nullMarker)] ∧
    fill_all_columns [colID, colA, colB]
        [(colB, .str ("b").data), (colA, .str ("a").data)]
        = .ok [(colA, .nullMarker), (colB, .str ("b").data)] := by
  decide

/-- C6: fetching a Select built with zero selected columns does NOT fail
with InvalidStatement before reaching the engine — its selector is the
empty list, not `None`, so the guard passes and the engine is invoked with
the malformed text `SELECT  FROM T` (the engine's rejection then surfaces
as InvalidQuery, not InvalidStatement). -/
theorem C6_empty_select_fetch_invokes_engine :
    Fetch (mkSelect ("T").data []) = .engineExecuted (("SELECT  FROM T").data) [] := by
  decide

/-- C7: `Table.InsertInto()` with no data and no keyword values does not
raise IllegalArgumentError — the guard `data is None and kwargs is None`
never holds because `kwargs` is an (empty) dict — and instead crashes with
AttributeError when `None` is used as the data mapping. -/
theorem C7_insert_no_data_attribute_error (table_name : List Char)
    (all_columns : List ColumnWrapper) :
    InsertIntoCall table_name all_columns Option.none [] = .error .attributeError :=
  rfl

/-- C9: Update and Delete statements are not executed at construction
(`exec_count = 0`), and applying a WHERE clause executes them exactly once
(`exec_count = 1` afterwards). -/
theorem C9_update_delete_execute_on_where (table_name : List Char)
    (data : List (ColumnWrapper × PyValue)) (c : WhereConditionWrapper)
    (s : SQLStatementS) :
    (mkDelete table_name).exec_count = 0 ∧
    (∀ s2, Where (mkDelete table_name) (some c) = .ok s2 → s2.exec_count = 1) ∧
    (mkUpdate table_name data = .ok s →
      s.exec_count = 0 ∧
      ∀ s2, Where s (some c) = .ok s2 → s2.exec_count = 1) := by
  refine ⟨rfl, ?_, ?_⟩
  · intro s2 h
    cases h
    rfl
  · intro h
    unfold mkUpdate at h
    cases hex : extract_sql_safe_values data with
    | error e =>
        rw [hex] at h
        exact Except.noConfusion h
    | ok values =>
        rw [hex] at h
        have h2 : Except.ok (ε := PyErr) (⟨("UPDATE ").data ++ table_name ++ (" SET ").data
              ++ joinComma (data.map fun p => p.1.name ++ (" = ?").data),
            values.map fun v => .str (pyStr v),
            Option.none, false, true, 0⟩ : SQLStatementS) = Except.ok s := h
        cases h2
        refine ⟨rfl, ?_⟩
        intro s2 hw
        cases hw
        rfl

/-- Witness for C9: the theorem applied to a concrete table and a concrete
update mapping, with the construction hypothesis discharged by computation. -/
theorem C9_update_delete_execute_on_where_witness :
    ∃ s, mkUpdate ("T").data [(colA, .str ("x").data)] = .ok s ∧
      s.exec_count = 0 ∧
      ∀ s2, Where s (some ⟨("ID = ?").data, [.int 1]⟩) = .ok s2 →
        s2.exec_count = 1 := by
  refine ⟨⟨("UPDATE T SET A = ?").data,
      [.str (squote :: ("x").data ++ [squote])],
      Option.none, false, true, 0⟩, rfl, ?_⟩
  exact (C9_update_delete_execute_on_where ("T").data [(colA, .str ("x").data)]
    ⟨("ID = ?").data, [.int 1]⟩ _).2.2 rfl

/-- C10: for Insert and Update statements whose construction succeeds, the
parameter pool is exactly `str(...)` applied to each converted value — so
every bound parameter is a text value; in particular the null marker is
bound as the text `NULL` for every descriptor, and integers render as
their decimal text. -/
theorem C10_text_parameters (table_name : List Char)
    (all_columns : List ColumnWrapper)
    (data filled : List (ColumnWrapper × PyValue)) (values : List PyValue) :
    (fill_all_columns all_columns data = .ok filled →
      extract_sql_safe_values filled = .ok values →
      ∃ st, mkInsert table_name all_columns data = .ok st ∧
        st.parameterised_query_pool = values.map (fun v => .str (pyStr v)) ∧
        ∀ p ∈ st.parameterised_query_pool, ∃ cs, p = .str cs) ∧
    (extract_sql_safe_values data = .ok values →
      ∃ st, mkUpdate table_name data = .ok st ∧
        st.parameterised_query_pool = values.map (fun v => .str (pyStr v)) ∧
        ∀ p ∈ st.parameterised_query_pool, ∃ cs, p = .str cs) ∧
    (∀ t, convert_to_sql t .nullMarker = .ok (.str ("NULL").data)) ∧
    pyStr (.str ("NULL").data) = ("NULL").data ∧
    (∀ n : Int, pyStr (.int n) = intChars n) := by
  refine ⟨?_, ?_, fun t => by simp [convert_to_sql], rfl, fun n => rfl⟩
  · intro hfill hex
    have hmk : mkInsert table_name all_columns data
        = .ok ⟨("INSERT INTO ").data ++ table_name ++ (" (").data
              ++ joinComma (filled.map fun p => p.1.name)
              ++ (") VALUES (").data
              ++ joinComma (values.map fun _ => ("?").data) ++ (")").data,
            values.map fun v => .str (pyStr v),
            Option.none, false, false, 1⟩ := by
      unfold mkInsert
      rw [hfill]
      simp only [Bind.bind, Except.bind]
      rw [hex]
    refine ⟨_, hmk, rfl, ?_⟩
    intro p hp
    rw [List.mem_map] at hp
    obtain ⟨v, -, hv⟩ := hp
    exact ⟨pyStr v, hv.symm⟩
  · intro hex
    have hmk : mkUpdate table_name data
        = .ok ⟨("UPDATE ").data ++ table_name ++ (" SET ").data
              ++ joinComma (data.map fun p => p.1.name ++ (" = ?").data),
            values.map fun v => .str (pyStr v),
            Option.none, false, true, 0⟩ := by
      unfold mkUpdate
      rw [hex]
      simp only [Bind.bind, Except.bind]
    refine ⟨_, hmk, rfl, ?_⟩
    intro p hp
    rw [List.mem_map] at hp
    obtain ⟨v, -, hv⟩ := hp
    exact ⟨pyStr v, hv.symm⟩

theorem C10_text_parameters_witness :
    ∃ st, mkInsert ("T").data [colID, colA] [(colA, .str ("x").data)] = .ok st ∧
      st.parameterised_query_pool
        = [PyValue.str (squote :: ("x").data ++ [squote])] := by
  obtain ⟨st, h1, h2, -⟩ := (C10_text_parameters ("T").data [colID, colA]
    [(colA, .str ("x").data)] [(colA, .str ("x").data)]
    [.str (squote :: ("x").data ++ [squote])]).1 (by decide) (by decide)
  exact ⟨st, h1, by rw [h2]; rfl⟩

end KieranSQL
